import Mathlib

/-
  Shallow embedding of the environment-provisioning and process-supervision
  engine of the oTree deployment launcher (src/main/otree-controller.ts,
  src/main/python-manager.ts, src/main/utils.ts, src/main/constants.ts),
  together with theorems settling the spec claims about it.
-/

set_option maxRecDepth 100000

namespace OtreeDeploy

/- ## MD5 (model of Node crypto.createHash md5, used by getVenvPaths) -/

/-- 32-bit mask, `n mod 2^32`. -/
def mask32 (n : Nat) : Nat := n % 4294967296

/-- 32-bit addition. -/
def add32 (a b : Nat) : Nat := (a + b) % 4294967296

/-- 32-bit bitwise complement (xor with all ones). -/
def not32 (a : Nat) : Nat := 4294967295 ^^^ (a % 4294967296)

/-- 32-bit left rotation by `s` places. -/
def rotl32 (x : Nat) (s : Nat) : Nat :=
  (((x % 4294967296) <<< s) ||| ((x % 4294967296) >>> (32 - s))) % 4294967296

/-- The 64 MD5 round constants (integer parts of abs(sin(i+1)) * 2^32). -/
def md5K : List Nat :=
  [0xd76aa478, 0xe8c7b756, 0x242070db, 0xc1bdceee,
   0xf57c0faf, 0x4787c62a, 0xa8304613, 0xfd469501,
   0x698098d8, 0x8b44f7af, 0xffff5bb1, 0x895cd7be,
   0x6b901122, 0xfd987193, 0xa679438e, 0x49b40821,
   0xf61e2562, 0xc040b340, 0x265e5a51, 0xe9b6c7aa,
   0xd62f105d, 0x02441453, 0xd8a1e681, 0xe7d3fbc8,
   0x21e1cde6, 0xc33707d6, 0xf4d50d87, 0x455a14ed,
   0xa9e3e905, 0xfcefa3f8, 0x676f02d9, 0x8d2a4c8a,
   0xfffa3942, 0x8771f681, 0x6d9d6122, 0xfde5380c,
   0xa4beea44, 0x4bdecfa9, 0xf6bb4b60, 0xbebfbc70,
   0x289b7ec6, 0xeaa127fa, 0xd4ef3085, 0x04881d05,
   0xd9d4d039, 0xe6db99e5, 0x1fa27cf8, 0xc4ac5665,
   0xf4292244, 0x432aff97, 0xab9423a7, 0xfc93a039,
   0x655b59c3, 0x8f0ccc92, 0xffeff47d, 0x85845dd1,
   0x6fa87e4f, 0xfe2ce6e0, 0xa3014314, 0x4e0811a1,
   0xf7537e82, 0xbd3af235, 0x2ad7d2bb, 0xeb86d391]

/-- The per-round left-rotation amounts. -/
def md5S : List Nat :=
  [7, 12, 17, 22, 7, 12, 17, 22, 7, 12, 17, 22, 7, 12, 17, 22,
   5, 9, 14, 20, 5, 9, 14, 20, 5, 9, 14, 20, 5, 9, 14, 20,
   4, 11, 16, 23, 4, 11, 16, 23, 4, 11, 16, 23, 4, 11, 16, 23,
   6, 10, 15, 21, 6, 10, 15, 21, 6, 10, 15, 21, 6, 10, 15, 21]

/-- The four 32-bit words of the MD5 internal state. -/
structure MD5State where
  a : Nat
  b : Nat
  c : Nat
  d : Nat
deriving DecidableEq, Repr

/-- MD5 initial state. -/
def md5Init : MD5State :=
  { a := 0x67452301, b := 0xefcdab89, c := 0x98badcfe, d := 0x10325476 }

/-- One of the 64 MD5 rounds, over the 16 message words `M`. -/
def md5Round (M : List Nat) (st : MD5State) (i : Nat) : MD5State :=
  let fg : Nat × Nat :=
    if i < 16 then ((st.b &&& st.c) ||| (not32 st.b &&& st.d), i)
    else if i < 32 then ((st.d &&& st.b) ||| (not32 st.d &&& st.c), (5 * i + 1) % 16)
    else if i < 48 then (st.b ^^^ st.c ^^^ st.d, (3 * i + 5) % 16)
    else (st.c ^^^ (st.b ||| not32 st.d), (7 * i) % 16)
  let f := (fg.1 + st.a + md5K.getD i 0 + M.getD fg.2 0) % 4294967296
  { a := st.d,
    b := (st.b + rotl32 f (md5S.getD i 0)) % 4294967296,
    c := st.b,
    d := st.c }

/-- Assemble a little-endian 32-bit word from four bytes. -/
def bytesToWordLE (b0 b1 b2 b3 : Nat) : Nat :=
  b0 + b1 * 256 + b2 * 65536 + b3 * 16777216

/-- The 16 little-endian message words of a 64-byte block. -/
def blockWords (block : List Nat) : List Nat :=
  (List.range 16).map (fun i =>
    bytesToWordLE (block.getD (4 * i) 0) (block.getD (4 * i + 1) 0)
      (block.getD (4 * i + 2) 0) (block.getD (4 * i + 3) 0))

/-- Process one 64-byte block: 64 rounds, then add onto the incoming state. -/
def md5ProcessBlock (st0 : MD5State) (block : List Nat) : MD5State :=
  let M := blockWords block
  let st := (List.range 64).foldl (md5Round M) st0
  { a := add32 st0.a st.a, b := add32 st0.b st.b,
    c := add32 st0.c st.c, d := add32 st0.d st.d }

/-- Serialize a 64-bit length as eight little-endian bytes. -/
def word64ToBytesLE (n : Nat) : List Nat :=
  [n % 256, (n >>> 8) % 256, (n >>> 16) % 256, (n >>> 24) % 256,
   (n >>> 32) % 256, (n >>> 40) % 256, (n >>> 48) % 256, (n >>> 56) % 256]

/-- MD5 padding: a 0x80 byte, zeros to 56 mod 64, then the bit length. -/
def padMessage (msg : List Nat) : List Nat :=
  let len := msg.length
  let padZeros := (119 - len % 64) % 64
  msg ++ [128] ++ List.replicate padZeros 0 ++ word64ToBytesLE (len * 8)

/-- Split a byte list into successive 64-byte blocks (fuel-driven recursion;
the fuel is the list length, which bounds the number of blocks). -/
def toBlocksAux : Nat → List Nat → List (List Nat)
  | 0, _ => []
  | _, [] => []
  | fuel + 1, l => l.take 64 :: toBlocksAux fuel (l.drop 64)

/-- Split a byte list into successive 64-byte blocks. -/
def toBlocks (l : List Nat) : List (List Nat) := toBlocksAux l.length l

/-- Serialize a 32-bit word as four little-endian bytes. -/
def word32ToBytesLE (n : Nat) : List Nat :=
  [n % 256, (n >>> 8) % 256, (n >>> 16) % 256, (n >>> 24) % 256]

/-- The 16-byte MD5 digest of a byte list. -/
def md5Digest (msg : List Nat) : List Nat :=
  let st := (toBlocks (padMessage msg)).foldl md5ProcessBlock md5Init
  word32ToBytesLE st.a ++ word32ToBytesLE st.b ++ word32ToBytesLE st.c ++ word32ToBytesLE st.d

/- ## Hex encoding (model of Buffer digest hex output) -/

/-- The sixteen lowercase hexadecimal digit characters. -/
def hexDigits : List Char := "0123456789abcdef".data

/-- The hexadecimal digit character for a value below 16. -/
def hexChar (n : Nat) : Char := hexDigits.getD n '0'

/-- Two hex characters for one byte. -/
def byteToHex (b : Nat) : List Char := [hexChar (b / 16 % 16), hexChar (b % 16)]

/-- Lowercase hex rendering of a byte list. -/
def bytesToHex (bs : List Nat) : List Char := (bs.map byteToHex).flatten

/- ## UTF-8 encoding (model of Node string-to-bytes conversion) -/

/-- UTF-8 encoding of one Unicode code point. -/
def utf8EncodeCharNat (n : Nat) : List Nat :=
  if n < 128 then [n]
  else if n < 2048 then [192 + n / 64, 128 + n % 64]
  else if n < 65536 then [224 + n / 4096, 128 + n / 64 % 64, 128 + n % 64]
  else [240 + n / 262144, 128 + n / 4096 % 64, 128 + n / 64 % 64, 128 + n % 64]

/-- UTF-8 bytes of a string. -/
def stringBytes (s : String) : List Nat :=
  (s.data.map (fun c => utf8EncodeCharNat c.toNat)).flatten

/- ## Project identity (otree-controller.ts getVenvPaths, lines 200-223) -/

/-- The project identifier: md5 of the full project path, hex, first 8 chars.
Embeds crypto.createHash md5 update(projectPath) digest hex substring(0, 8). -/
def projectHash (projectPath : String) : String :=
  String.mk ((bytesToHex (md5Digest (stringBytes projectPath))).take 8)

/-- Model of path.join for two segments. -/
def joinPath (a b : String) : String := a ++ "/" ++ b

/-- The venv-related paths computed by getVenvPaths. -/
structure VenvPaths where
  python : String
  pip : String
  otree : String
  venvDir : String
deriving DecidableEq, Repr

/-- Embedding of getVenvPaths: venvs live under the app userData directory,
keyed by the 8-character project hash; binaries under Scripts (win) or bin. -/
def getVenvPaths (isWin : Bool) (userData : String) (projectPath : String) : VenvPaths :=
  let venvBaseDir := joinPath userData "venvs"
  let venvDir := joinPath venvBaseDir (projectHash projectPath)
  let binDir := if isWin then joinPath venvDir "Scripts" else joinPath venvDir "bin"
  { python := joinPath binDir (if isWin then "python.exe" else "python"),
    pip := joinPath binDir (if isWin then "pip.exe" else "pip"),
    otree := joinPath binDir (if isWin then "otree.exe" else "otree"),
    venvDir := venvDir }

/- ## Constants (constants.ts) -/

/-- constants.ts DEFAULT_OTREE_PORT. -/
def defaultOtreePort : Nat := 8000

/-- constants.ts ERROR_CODES PORT_IN_USE. -/
def errCodePortInUse : String := "EADDRINUSE"

/-- constants.ts ERROR_CODES ERRNO_10048 (Windows-specific port-in-use text). -/
def errno10048 : String := "Errno 10048"

/- ## String search (model of JS String.includes) -/

/-- Whether `pat` occurs as a contiguous substring of `s`. -/
def strIncludes (s pat : String) : Bool := decide (pat.data <:+: s.data)

/- ## utils.ts isManagedPython -/

/-- Embedding of utils.ts isManagedPython: does the path lie inside the
managed install tree (substring check, either separator)? -/
def isManagedPython (pythonPath : String) : Bool :=
  strIncludes pythonPath "otree-deploy-one-click\\pythons\\" ||
  strIncludes pythonPath "otree-deploy-one-click/pythons/"

/- ## Child process environment (model of process.env manipulation) -/

/-- A process environment, as a partial map from variable names to values. -/
def EnvMap : Type := String → Option String

/-- Remove one key (JS delete env.KEY). -/
def deleteKey (e : EnvMap) (k : String) : EnvMap :=
  fun q => if q = k then none else e q

/-- Override one key (JS spread override). -/
def setKey (e : EnvMap) (k v : String) : EnvMap :=
  fun q => if q = k then some v else e q

/-- A spawned child process: command, arguments, environment. -/
structure SpawnRecord where
  cmd : String
  args : List String
  env : EnvMap

/-- The otree-controller.ts proxy-stripping pattern: delete the eight
proxy-related variables (upper and lower case). -/
def stripProxyEnv (e : EnvMap) : EnvMap :=
  deleteKey (deleteKey (deleteKey (deleteKey (deleteKey (deleteKey (deleteKey
    (deleteKey e "HTTP_PROXY") "HTTPS_PROXY") "http_proxy") "https_proxy")
    "ALL_PROXY") "all_proxy") "NO_PROXY") "no_proxy"

/-- The python-manager.ts setupEmbeddablePython pattern: spread process.env
and override NO_PROXY to a wildcard and the four HTTP(S) proxy variables to
empty strings; nothing is deleted. -/
def bootstrapPipEnv (e : EnvMap) : EnvMap :=
  setKey (setKey (setKey (setKey (setKey e "NO_PROXY" "*")
    "HTTP_PROXY" "") "HTTPS_PROXY" "") "http_proxy" "") "https_proxy" ""

/-- Controller, install-requirements handler: first-time virtualenv install
(otree-controller.ts line 343). -/
def installVirtualenvSpawn (pipExe : String) (e : EnvMap) : SpawnRecord :=
  { cmd := pipExe, args := ["install", "--no-proxy", "virtualenv"], env := stripProxyEnv e }

/-- Controller, install-requirements handler: the dependency install itself
(otree-controller.ts line 448). -/
def installRequirementsSpawn (pip : String) (hasRequirements : Bool) (e : EnvMap) : SpawnRecord :=
  { cmd := pip,
    args := if hasRequirements
      then ["install", "--no-proxy", "-r", "requirements.txt"]
      else ["install", "--no-proxy", "otree"],
    env := stripProxyEnv e }

/-- Controller, repair handler: force-reinstall virtualenv
(otree-controller.ts line 846). -/
def repairPythonSpawn (pipExe : String) (e : EnvMap) : SpawnRecord :=
  { cmd := pipExe,
    args := ["install", "--no-proxy", "--force-reinstall", "virtualenv"],
    env := stripProxyEnv e }

/-- Controller, create-project handler: install oTree before scaffolding
(otree-controller.ts line 1004). -/
def createProjectPipSpawn (pipCmd : String) (e : EnvMap) : SpawnRecord :=
  { cmd := pipCmd, args := ["install", "--no-proxy", "otree"], env := stripProxyEnv e }

/-- Provisioner bootstrap: run get-pip.py with the freshly extracted runtime
(python-manager.ts line 200). -/
def getPipBootstrapSpawn (pythonExe getPipPath : String) (e : EnvMap) : SpawnRecord :=
  { cmd := pythonExe, args := [getPipPath], env := bootstrapPipEnv e }

/-- Provisioner bootstrap: install virtualenv with the freshly bootstrapped
pip (python-manager.ts line 236). -/
def virtualenvBootstrapSpawn (pipExe : String) (e : EnvMap) : SpawnRecord :=
  { cmd := pipExe, args := ["install", "virtualenv"], env := bootstrapPipEnv e }

/- ## Port negotiation (otree-controller.ts getPort, lines 35-62) -/

/-- Result of one test bind. -/
inductive BindResult
  | ok
  | err (code : String)
deriving DecidableEq, Repr

/-- Result of the whole getPort promise. -/
inductive PortOutcome
  | resolved (port : Nat)
  | rejected (code : String)
deriving DecidableEq, Repr

/-- Embedding of getPort: try the desired port; on EADDRINUSE fall back to an
OS-assigned port from a zero bind; any other error rejects. -/
def getPort (desiredPort : Nat) (firstBind : BindResult) (secondBind : BindResult)
    (osAssigned : Nat) : PortOutcome :=
  match firstBind with
  | .ok => .resolved desiredPort
  | .err code =>
    if code = errCodePortInUse then
      match secondBind with
      | .ok => .resolved osAssigned
      | .err c => .rejected c
    else .rejected code

/-- One listen call issued by getPort: the requested port and explicit host. -/
structure ListenCall where
  port : Nat
  host : Option String
deriving DecidableEq, Repr

/-- The listen calls getPort issues, in order: the desired port is always
test-bound explicitly against 127.0.0.1; the fallback zero bind has no host. -/
def getPortListenCalls (desiredPort : Nat) (firstBind : BindResult) : List ListenCall :=
  match firstBind with
  | .ok => [{ port := desiredPort, host := some "127.0.0.1" }]
  | .err code =>
    if code = errCodePortInUse then
      [{ port := desiredPort, host := some "127.0.0.1" }, { port := 0, host := none }]
    else [{ port := desiredPort, host := some "127.0.0.1" }]

/-- OS bind semantics against a set of busy ports. -/
def osBind (busyPorts : List Nat) (port : Nat) : BindResult :=
  if port ∈ busyPorts then .err errCodePortInUse else .ok

/-- getPort run against an OS whose loopback busy-port set is `busyPorts`,
where a zero bind yields the OS-assigned port `osAssigned`. -/
def getPortScenario (busyPorts : List Nat) (osAssigned : Nat) (desiredPort : Nat) : PortOutcome :=
  getPort desiredPort (osBind busyPorts desiredPort) (osBind busyPorts osAssigned) osAssigned

/- ## Python-mode output watching (otree-controller.ts lines 553-611) -/

/-- The port-already-in-use marker test applied to each output chunk
(checkRunning): Errno 10048 or the address-already-in-use text. -/
def portBusyMarker (log : String) : Bool :=
  strIncludes log errno10048 || strIncludes log "address already in use"

/-- The ready marker for the negotiated port (checkRunning). -/
def runningMarker (port : Nat) (log : String) : Bool :=
  strIncludes log ("http://localhost:" ++ toString port) ||
  strIncludes log ("http://127.0.0.1:" ++ toString port)

/-- The portBusy flag after the child's output chunks have been scanned:
initially false, set (and never cleared) by any chunk with the marker. -/
def portBusyAfter (chunks : List String) : Bool :=
  chunks.foldl (fun b log => b || portBusyMarker log) false

/-- The status event emitted by the close handler of the Python-mode child:
running when the flag was set, stopped otherwise; the exit code is unused. -/
def pythonCloseStatus (portBusy : Bool) (_code : Option Int) : String :=
  if portBusy then "running" else "stopped"

/- ## Supervisor state (otree-controller.ts module-level mutable state) -/

/-- The controller's module-level mutable state, plus a model of the set of
live child processes (`running`) and a fresh-pid counter for spawns. -/
structure CtrlState where
  otreeProcess : Option Nat
  running : List Nat
  nextPid : Nat
  isDockerMode : Bool
  currentPort : Nat
  isCleaningUp : Bool
  currentProjectPath : Option String
deriving DecidableEq, Repr

/-- Embedding of the OTREE_START_PYTHON handler (lines 514-619) as a state
transition: record the project path; if the otree entry point is missing,
return without spawning; if port negotiation rejects, the catch returns
without spawning; otherwise spawn a fresh child and point otreeProcess at
it. No existing process is consulted, stopped or killed. -/
def startPythonHandler (projectPath : String) (otreeExists : Bool)
    (portResult : PortOutcome) (s : CtrlState) : CtrlState :=
  let s0 := { s with currentProjectPath := some projectPath }
  if otreeExists then
    match portResult with
    | .rejected _ => s0
    | .resolved port =>
      { s0 with
        currentPort := port,
        isDockerMode := false,
        otreeProcess := some s0.nextPid,
        running := s0.running ++ [s0.nextPid],
        nextPid := s0.nextPid + 1 }
  else s0

/-- Embedding of the OTREE_START (Docker) handler (lines 236-299): record the
project path; if writing the compose file fails, the catch returns without
spawning; otherwise spawn the docker compose child and point otreeProcess at
it. No existing process is consulted, stopped or killed. -/
def startDockerHandler (projectPath : String) (writeOk : Bool) (s : CtrlState) : CtrlState :=
  let s0 := { s with currentProjectPath := some projectPath }
  if writeOk then
    { s0 with
      isDockerMode := true,
      otreeProcess := some s0.nextPid,
      running := s0.running ++ [s0.nextPid],
      nextPid := s0.nextPid + 1 }
  else s0

/- ## Stop routine (otree-controller.ts killOtreeProcess, lines 130-195) -/

/-- The externally visible actions the stop routine can perform. -/
inductive StopAction
  | statusLog (msg : String)
  | dockerComposeDown
  | killTreeByPid (pid : Nat)
  | killByPort (port : Nat)
  | killGroup (pid : Nat)
  | killDirect (pid : Nat)
deriving DecidableEq, Repr

/-- Is the action a process-teardown action (as opposed to a status line)? -/
def StopAction.isKill : StopAction → Bool
  | .statusLog _ => false
  | _ => true

/-- Embedding of killOtreeProcess: an in-flight guard makes a concurrent call
return at once; otherwise the guard is set, docker teardown and the
platform-specific kill run only when a process is tracked, and the finally
block always clears the guard. `groupKillFails` models the Unix group kill
throwing, which falls back to a direct kill of the one process. -/
def killOtreeProcess (isWin : Bool) (hasWindow : Bool) (groupKillFails : Bool)
    (s : CtrlState) : CtrlState × List StopAction :=
  if s.isCleaningUp then (s, [])
  else
    let acts0 := if hasWindow then [StopAction.statusLog "Stopping server..."] else []
    match s.otreeProcess with
    | none =>
      let acts1 := if hasWindow then [StopAction.statusLog "Server stopped."] else []
      ({ s with isCleaningUp := false }, acts0 ++ acts1)
    | some pid =>
      let actsDocker :=
        if s.isDockerMode && s.currentProjectPath.isSome then [StopAction.dockerComposeDown] else []
      let actsKill :=
        if isWin then
          (if 0 < pid then [StopAction.killTreeByPid pid] else []) ++
          [StopAction.killByPort s.currentPort]
        else
          if 0 < pid then
            (if groupKillFails then [StopAction.killDirect pid] else [StopAction.killGroup pid])
          else []
      let acts1 := if hasWindow then [StopAction.statusLog "Server stopped."] else []
      ({ s with
         otreeProcess := none,
         running := s.running.filter (fun p => decide (p ≠ pid)),
         isCleaningUp := false },
       acts0 ++ actsDocker ++ actsKill ++ acts1)

/- ## Environment ensure step (OTREE_INSTALL_REQUIREMENTS handler, lines 302-417) -/

/-- The venv-root decision the install-requirements handler makes. -/
structure EnsureResult where
  root : String
  created : Bool
  strategy : String
deriving DecidableEq, Repr

/-- Embedding of the venv-ensuring step of the install-requirements handler:
compute the paths from the project path alone, reuse the root verbatim when
it exists, otherwise create it with virtualenv for a managed runtime and
with the native venv module for any other runtime. -/
def installRequirementsEnsure (isWin : Bool) (userData : String) (existingDirs : List String)
    (projectPath : String) (pythonCmd : String) : EnsureResult :=
  let paths := getVenvPaths isWin userData projectPath
  if paths.venvDir ∈ existingDirs then
    { root := paths.venvDir, created := false, strategy := "reuse" }
  else if isManagedPython pythonCmd then
    { root := paths.venvDir, created := true, strategy := "virtualenv" }
  else
    { root := paths.venvDir, created := true, strategy := "venv" }

/- ## Runtime provisioner (python-manager.ts PythonManager.downloadPython) -/

/-- A registry entry for an installed runtime. -/
structure ManagedPython where
  version : String
  path : String
  downloadDate : String
  source : String
deriving DecidableEq, Repr

/-- A version-to-URL table entry (python-urls config). -/
structure PythonVersionEntry where
  version : String
  url : String
deriving DecidableEq, Repr

/-- The built-in default version table of python-manager.ts. -/
def defaultPythonVersions : List PythonVersionEntry :=
  [{ version := "3.7.9",
     url := "https://xindamate-1308187607.cos.ap-guangzhou.myqcloud.com/python/python-3.7.9-embed-amd64.zip" },
   { version := "3.8.10",
     url := "https://xindamate-1308187607.cos.ap-guangzhou.myqcloud.com/python/python-3.8.10-embed-amd64.zip" },
   { version := "3.9.13",
     url := "https://xindamate-1308187607.cos.ap-guangzhou.myqcloud.com/python/python-3.9.13-embed-amd64.zip" },
   { version := "3.10.11",
     url := "https://xindamate-1308187607.cos.ap-guangzhou.myqcloud.com/python/python-3.10.11-embed-amd64.zip" },
   { version := "3.11.9",
     url := "https://xindamate-1308187607.cos.ap-guangzhou.myqcloud.com/python/python-3.11.9-embed-amd64.zip" },
   { version := "3.12.7",
     url := "https://xindamate-1308187607.cos.ap-guangzhou.myqcloud.com/python/python-3.12.7-embed-amd64.zip" },
   { version := "3.13.0",
     url := "https://xindamate-1308187607.cos.ap-guangzhou.myqcloud.com/python/python-3.13.0-embed-amd64.zip" }]

/-- Outcome of one provisioning step. -/
inductive StepOutcome
  | ok
  | fail (msg : String)
deriving DecidableEq, Repr

/-- The outcomes of the three fallible steps inside the try block of
downloadPython: the archive download, the extraction, and the pip and
virtualenv bootstrap (setupEmbeddablePython). -/
structure ProvisionOutcomes where
  download : StepOutcome
  extract : StepOutcome
  setup : StepOutcome
deriving DecidableEq, Repr

/-- The provisioner's world: the filesystem paths that exist, and the
managed-runtime registry list. -/
structure ProvisionWorld where
  dirs : List String
  managed : List ManagedPython
deriving DecidableEq, Repr

/-- The managed-install root (userData/pythons). -/
def pythonsDir (userData : String) : String := joinPath userData "pythons"

/-- Is `p` the directory `root` itself or a path strictly under it? -/
def underDir (root p : String) : Bool := p == root || (root ++ "/").data.isPrefixOf p.data

/-- fs.remove of a directory: everything at or under it disappears. -/
def removeDirTree (dirs : List String) (root : String) : List String :=
  dirs.filter (fun d => ! underDir root d)

/-- Embedding of PythonManager.downloadPython (lines 111-161): unknown
version and already-present install directory fail before anything is
created; then the install directory is created, and any failure of the
download, extraction or bootstrap steps lands in the catch block, which
removes the entire install directory before rethrowing; on success the
registry is extended and the archive deleted. -/
def downloadPython (userData : String) (table : List PythonVersionEntry) (version : String)
    (oc : ProvisionOutcomes) (w : ProvisionWorld) : Except String String × ProvisionWorld :=
  match table.find? (fun v => v.version == version) with
  | none => (Except.error ("Unsupported version: " ++ version), w)
  | some _ =>
    let installDir := joinPath (pythonsDir userData) version
    if installDir ∈ w.dirs then
      (Except.error ("Python " ++ version ++ " is already installed"), w)
    else
      let zipPath := joinPath installDir "python.zip"
      let w1 : ProvisionWorld := { w with dirs := w.dirs ++ [installDir] }
      match oc.download with
      | .fail m => (Except.error m, { w1 with dirs := removeDirTree w1.dirs installDir })
      | .ok =>
        let w2 : ProvisionWorld := { w1 with dirs := w1.dirs ++ [zipPath] }
        match oc.extract with
        | .fail m => (Except.error m, { w2 with dirs := removeDirTree w2.dirs installDir })
        | .ok =>
          match oc.setup with
          | .fail m => (Except.error m, { w2 with dirs := removeDirTree w2.dirs installDir })
          | .ok =>
            let pythonExe := joinPath installDir "python.exe"
            let w3 : ProvisionWorld :=
              { dirs := w2.dirs.filter (fun d => !(d == zipPath)),
                managed := w2.managed ++
                  [{ version := version, path := pythonExe, downloadDate := "", source := "python.org" }] }
            (Except.ok pythonExe, w3)

/- ## Runtime registry persistence (python-manager.ts lines 425-445) -/

/-- The persisted registry document. -/
structure PythonRegistry where
  managed : List ManagedPython
  system : List ManagedPython
  projectPreferences : List (String × String)
deriving DecidableEq, Repr

/-- The empty catalog loadRegistry falls back to. -/
def emptyRegistry : PythonRegistry :=
  { managed := [], system := [], projectPreferences := [] }

/-- What is on disk at the registry path: missing, unparsable, or a document. -/
inductive RegistryDoc
  | absent
  | unparsable
  | parsed (r : PythonRegistry)
deriving DecidableEq, Repr

/-- Embedding of PythonManager.loadRegistry: a parsed document is returned;
an absent file or a parse failure (caught and logged) yields the empty
catalog; nothing is thrown. -/
def loadRegistry : RegistryDoc → PythonRegistry
  | .parsed r => r
  | .absent => emptyRegistry
  | .unparsable => emptyRegistry

/-- Outcome of the underlying JSON write. -/
inductive WriteOutcome
  | ok
  | ioError (msg : String)
deriving DecidableEq, Repr

/-- What saveRegistry did: what it raised to the caller (always nothing),
what it logged, and what ends up on disk. -/
structure SaveResult where
  raised : Option String
  loggedError : Option String
  disk : RegistryDoc
deriving DecidableEq, Repr

/-- Embedding of PythonManager.saveRegistry: the write is wrapped in
try/catch, so an I/O failure is logged and swallowed, never raised. -/
def saveRegistry (r : PythonRegistry) (prior : RegistryDoc) (wo : WriteOutcome) : SaveResult :=
  match wo with
  | .ok => { raised := none, loggedError := none, disk := .parsed r }
  | .ioError m => { raised := none, loggedError := some m, disk := prior }

/- ## Clean-environment handler (OTREE_CLEAN_VENV, lines 704-720) -/

/-- The value the clean handler returns to the renderer. -/
structure CleanResult where
  success : Bool
  message : String
deriving DecidableEq, Repr

/-- Outcome of the fs.remove call. -/
inductive FsOutcome
  | ok
  | failure (msg : String)
deriving DecidableEq, Repr

/-- Embedding of the OTREE_CLEAN_VENV handler: a missing venv root returns
success with a not-found message; an existing root is removed and success
returned; a filesystem failure is caught and turned into a returned
failure value. In every case a CleanResult is returned, never an
exception. -/
def cleanVenvHandler (isWin : Bool) (userData : String) (dirs : List String)
    (projectPath : String) (removeOutcome : FsOutcome) : CleanResult × List String :=
  let paths := getVenvPaths isWin userData projectPath
  if paths.venvDir ∈ dirs then
    match removeOutcome with
    | .ok =>
      ({ success := true, message := "Virtual environment removed successfully." },
       removeDirTree dirs paths.venvDir)
    | .failure m => ({ success := false, message := m }, dirs)
  else
    ({ success := true, message := "No virtual environment found for this project." }, dirs)

/-- A hex digit character test. -/
def isHexDigitChar (c : Char) : Bool := hexDigits.contains c

/-- The property the spec claims of every pip invocation: all eight
proxy-related variables absent from the child environment. -/
@[reducible] def proxyStripped (r : SpawnRecord) : Prop :=
  r.env "HTTP_PROXY" = none ∧ r.env "HTTPS_PROXY" = none ∧
  r.env "http_proxy" = none ∧ r.env "https_proxy" = none ∧
  r.env "ALL_PROXY" = none ∧ r.env "all_proxy" = none ∧
  r.env "NO_PROXY" = none ∧ r.env "no_proxy" = none

/-- The property the spec claims of every pip invocation: the explicit
proxy-bypass flag among the arguments. -/
@[reducible] def hasNoProxyFlag (r : SpawnRecord) : Prop := "--no-proxy" ∈ r.args

/- ## Test vectors and helper lemmas -/

lemma md5_test_vector_empty :
    String.mk (bytesToHex (md5Digest [])) = "d41d8cd98f00b204e9800998ecf8427e" := by rfl

lemma md5_test_vector_abc :
    String.mk (bytesToHex (md5Digest (stringBytes "abc"))) =
      "900150983cd24fb0d6963f7d28e17f72" := by rfl

lemma hexChar_hex (n : Nat) : isHexDigitChar (hexChar n) = true := by
  unfold hexChar
  rcases Nat.lt_or_ge n 16 with h | h
  · interval_cases n <;> decide
  · rw [List.getD_eq_default]
    · decide
    · simpa [hexDigits] using h

lemma bytesToHex_cons (b : Nat) (bs : List Nat) :
    bytesToHex (b :: bs) = byteToHex b ++ bytesToHex bs := rfl

lemma bytesToHex_all_hex (bs : List Nat) : (bytesToHex bs).all isHexDigitChar = true := by
  induction bs with
  | nil => rfl
  | cons b bs ih =>
    rw [bytesToHex_cons, List.all_append, ih]
    simp [byteToHex, hexChar_hex]

lemma bytesToHex_length (bs : List Nat) : (bytesToHex bs).length = 2 * bs.length := by
  induction bs with
  | nil => rfl
  | cons b bs ih =>
    rw [bytesToHex_cons, List.length_append, ih]
    simp [byteToHex]
    omega

lemma md5Digest_length (msg : List Nat) : (md5Digest msg).length = 16 := by
  simp [md5Digest, word32ToBytesLE]

lemma projectHash_data (p : String) :
    (projectHash p).data = (bytesToHex (md5Digest (stringBytes p))).take 8 := rfl

lemma projectHash_length (p : String) : (projectHash p).length = 8 := by
  have h1 : (bytesToHex (md5Digest (stringBytes p))).length = 32 := by
    rw [bytesToHex_length, md5Digest_length]
  show (projectHash p).data.length = 8
  rw [projectHash_data, List.length_take, h1]
  decide

lemma isPrefixOf_append_self (l₁ l₂ : List Char) : l₁.isPrefixOf (l₁ ++ l₂) = true := by
  induction l₁ with
  | nil => simp [List.isPrefixOf]
  | cons a l ih => simp [List.isPrefixOf, ih]

lemma underDir_self (root : String) : underDir root root = true := by
  simp [underDir]

lemma underDir_joinPath (root sub : String) : underDir root (joinPath root sub) = true := by
  unfold underDir joinPath
  rw [Bool.or_eq_true]
  right
  have h2 : (root ++ "/" ++ sub).data = (root ++ "/").data ++ sub.data := by
    simp
  rw [h2]
  exact isPrefixOf_append_self _ _

lemma removeDirTree_append_clean (dirs l : List String) (root : String)
    (h1 : ∀ d ∈ dirs, underDir root d = false) (h2 : ∀ x ∈ l, underDir root x = true) :
    removeDirTree (dirs ++ l) root = dirs := by
  unfold removeDirTree
  rw [List.filter_append]
  have ha : dirs.filter (fun d => ! underDir root d) = dirs := by
    rw [List.filter_eq_self]
    intro a hmem
    rw [h1 a hmem]
    rfl
  have hb : l.filter (fun d => ! underDir root d) = [] := by
    rw [List.filter_eq_nil_iff]
    intro a hmem
    rw [h2 a hmem]
    decide
  rw [ha, hb, List.append_nil]

/- ## Claim theorems -/

/-- Claim C8: the project identity derivation is a pure, deterministic
function of the full absolute path string, and the identifier is exactly 8
hexadecimal characters wide. projectHash is a pure Lean function of the
whole path string, so determinism and restart stability hold by
construction; the theorem adds that the output is always 8 characters, all
hexadecimal digits, and that it depends on more than the basename: two
paths with the same basename hash differently. -/
theorem claim_C8 :
    (∀ p : String,
      (projectHash p).length = 8 ∧ (projectHash p).data.all isHexDigitChar = true) ∧
    projectHash "/home/alice/experiment" ≠ projectHash "/home/bob/experiment" := by
  constructor
  · intro p
    refine ⟨projectHash_length p, ?_⟩
    have h := bytesToHex_all_hex (md5Digest (stringBytes p))
    rw [List.all_eq_true] at h ⊢
    intro c hc
    rw [projectHash_data] at hc
    exact h c (List.take_subset _ _ hc)
  · decide

/-- Claim C2 counterexample: the claim says environments for the same
project under two different runtimes get two distinct, non-colliding
environment roots; in the code the root is derived from the project path
alone, so two different runtimes (here a system python and a managed
embeddable python, which even take different creation strategies) receive
the identical root. -/
theorem claim_C2_counterexample :
    "python" ≠ "C:/Users/u/AppData/Roaming/otree-deploy-one-click/pythons/3.11.9/python.exe" ∧
    (installRequirementsEnsure true "/ud" [] "/home/u/proj" "python").root =
      (installRequirementsEnsure true "/ud" [] "/home/u/proj"
        "C:/Users/u/AppData/Roaming/otree-deploy-one-click/pythons/3.11.9/python.exe").root := by
  refine ⟨by decide, ?_⟩
  rfl

/-- Claim C2 amended: the environment root produced by the
install-requirements handler depends only on the project path (plus the
platform and the application data directory), never on the runtime supplied
by the caller: any two runtimes for the same project yield the same root,
namely the getVenvPaths venv directory keyed by the project hash. -/
theorem claim_C2_amended :
    ∀ (isWin : Bool) (userData : String) (dirs : List String) (p cmd1 cmd2 : String),
      (installRequirementsEnsure isWin userData dirs p cmd1).root =
        (installRequirementsEnsure isWin userData dirs p cmd2).root ∧
      (installRequirementsEnsure isWin userData dirs p cmd1).root =
        (getVenvPaths isWin userData p).venvDir := by
  intro isWin userData dirs p cmd1 cmd2
  have h : ∀ cmd : String,
      (installRequirementsEnsure isWin userData dirs p cmd).root =
        (getVenvPaths isWin userData p).venvDir := by
    intro cmd
    unfold installRequirementsEnsure
    by_cases h1 : (getVenvPaths isWin userData p).venvDir ∈ dirs
    · simp [h1]
    · by_cases h2 : isManagedPython cmd = true
      · simp [h1, h2]
      · simp [h1, h2]
  exact ⟨(h cmd1).trans (h cmd2).symm, h cmd1⟩

/-- Claim C1 counterexample: the claim says a start handled while a
supervised process is live is rejected or implicitly stops the previous
process; in the code the Python-mode start handler spawns unconditionally
and overwrites the tracked reference, so from a state tracking live
process 1 it ends up tracking new process 2 while process 1 is still in the
running set, untracked. -/
theorem claim_C1_counterexample :
    (startPythonHandler "/home/u/proj" true (.resolved 8000)
        { otreeProcess := some 1, running := [1], nextPid := 2, isDockerMode := false,
          currentPort := 8000, isCleaningUp := false,
          currentProjectPath := some "/home/u/proj" }).otreeProcess = some 2 ∧
    1 ∈ (startPythonHandler "/home/u/proj" true (.resolved 8000)
        { otreeProcess := some 1, running := [1], nextPid := 2, isDockerMode := false,
          currentPort := 8000, isCleaningUp := false,
          currentProjectPath := some "/home/u/proj" }).running ∧
    (startPythonHandler "/home/u/proj" true (.resolved 8000)
        { otreeProcess := some 1, running := [1], nextPid := 2, isDockerMode := false,
          currentPort := 8000, isCleaningUp := false,
          currentProjectPath := some "/home/u/proj" }).otreeProcess ≠ some 1 := by
  refine ⟨rfl, by decide, by decide⟩

/-- Claim C1 amended: the supervisor enforces no single-instance guard
itself: a start command that reaches the spawn point (entry point present,
port negotiated, compose file written) transitions ANY state, including one
with a live supervised process, by spawning a fresh child and repointing
the tracked reference at it; the previously tracked process is never
stopped or killed and stays in the running set. Preventing overlapping
starts is delegated to the UI collaborator. -/
theorem claim_C1_amended :
    ∀ (path : String) (port : Nat) (s : CtrlState),
      startPythonHandler path true (.resolved port) s =
        { s with
          currentProjectPath := some path,
          currentPort := port,
          isDockerMode := false,
          otreeProcess := some s.nextPid,
          running := s.running ++ [s.nextPid],
          nextPid := s.nextPid + 1 } ∧
      startDockerHandler path true s =
        { s with
          currentProjectPath := some path,
          isDockerMode := true,
          otreeProcess := some s.nextPid,
          running := s.running ++ [s.nextPid],
          nextPid := s.nextPid + 1 } := by
  intro path port s
  exact ⟨rfl, rfl⟩

/-- Claim C3: runtime provisioning is atomic with respect to the install
directory: starting from a filesystem with nothing at or under the install
directory for the requested version, if any of the download, extraction or
bootstrap steps fails, downloadPython propagates an error and the
filesystem is restored exactly, so the partially-created install directory
and anything created inside it are gone. -/
theorem claim_C3 :
    ∀ (userData : String) (table : List PythonVersionEntry) (version : String)
      (oc : ProvisionOutcomes) (w : ProvisionWorld),
      (∀ d ∈ w.dirs, underDir (joinPath (pythonsDir userData) version) d = false) →
      ¬ (oc.download = .ok ∧ oc.extract = .ok ∧ oc.setup = .ok) →
      (∃ m, (downloadPython userData table version oc w).1 = Except.error m) ∧
      (downloadPython userData table version oc w).2.dirs = w.dirs := by
  intro userData table version oc w hclean hfail
  have hnotmem : joinPath (pythonsDir userData) version ∉ w.dirs := by
    intro hmem
    have h := hclean _ hmem
    rw [underDir_self] at h
    cases h
  have hrm1 : removeDirTree (w.dirs ++ [joinPath (pythonsDir userData) version])
      (joinPath (pythonsDir userData) version) = w.dirs := by
    refine removeDirTree_append_clean _ _ _ hclean ?_
    intro x hx
    rw [List.mem_singleton] at hx
    subst hx
    exact underDir_self _
  have hrm2 : removeDirTree (w.dirs ++ [joinPath (pythonsDir userData) version,
      joinPath (joinPath (pythonsDir userData) version) "python.zip"])
      (joinPath (pythonsDir userData) version) = w.dirs := by
    refine removeDirTree_append_clean _ _ _ hclean ?_
    intro x hx
    rcases List.mem_cons.mp hx with h | h
    · subst h
      exact underDir_self _
    · rw [List.mem_singleton] at h
      subst h
      exact underDir_joinPath _ _
  cases hfind : table.find? (fun v => v.version == version) with
  | none =>
    refine ⟨⟨"Unsupported version: " ++ version, ?_⟩, ?_⟩ <;>
      simp [downloadPython, hfind]
  | some entry =>
    cases hd : oc.download with
    | fail m =>
      refine ⟨⟨m, ?_⟩, ?_⟩ <;>
        simp [downloadPython, hfind, hnotmem, hd, hrm1]
    | ok =>
      cases he : oc.extract with
      | fail m =>
        refine ⟨⟨m, ?_⟩, ?_⟩ <;>
          simp [downloadPython, hfind, hnotmem, hd, he, hrm2]
      | ok =>
        cases hs : oc.setup with
        | fail m =>
          refine ⟨⟨m, ?_⟩, ?_⟩ <;>
            simp [downloadPython, hfind, hnotmem, hd, he, hs, hrm2]
        | ok => exact absurd ⟨hd, he, hs⟩ hfail

/-- Claim C3 witness: provisioning version 3.11.9 with a deliberately
failing extraction step errors out and leaves the filesystem as it was,
with no residual install directory. -/
theorem claim_C3_witness :
    (∃ m, (downloadPython "/ud" defaultPythonVersions "3.11.9"
        { download := .ok, extract := .fail "extract failed", setup := .ok }
        { dirs := ["/other/place"], managed := [] }).1 = Except.error m) ∧
    (downloadPython "/ud" defaultPythonVersions "3.11.9"
        { download := .ok, extract := .fail "extract failed", setup := .ok }
        { dirs := ["/other/place"], managed := [] }).2.dirs = ["/other/place"] :=
  claim_C3 "/ud" defaultPythonVersions "3.11.9"
    { download := .ok, extract := .fail "extract failed", setup := .ok }
    { dirs := ["/other/place"], managed := [] }
    (by decide) (by decide)

lemma getPipPath_ne_flag (a : String) : joinPath a "get-pip.py" ≠ "--no-proxy" := by
  intro h
  have hl := congrArg String.length h
  rw [joinPath, String.length_append, String.length_append] at hl
  have h1 : ("/" : String).length = 1 := rfl
  have h2 : ("get-pip.py" : String).length = 10 := rfl
  have h3 : ("--no-proxy" : String).length = 10 := rfl
  rw [h1, h2, h3] at hl
  omega

/-- Claim C4 counterexample: the claim says every pip invocation, including
the provisioning bootstrap ones, has the eight proxy variables stripped and
receives the explicit bypass flag; the bootstrap install of virtualenv in
setupEmbeddablePython does neither: ALL_PROXY is inherited unchanged from
the parent environment and the argument list carries no bypass flag. -/
theorem claim_C4_counterexample :
    ¬ (proxyStripped (virtualenvBootstrapSpawn "pip.exe"
          (fun k => if k = "ALL_PROXY" then some "http://proxy.corp:8080" else none)) ∧
       hasNoProxyFlag (virtualenvBootstrapSpawn "pip.exe"
          (fun k => if k = "ALL_PROXY" then some "http://proxy.corp:8080" else none))) := by
  decide

/-- Claim C4 amended: the four pip invocations issued by the controller
(first-time virtualenv install, dependency install, repair, project
creation) do strip all eight proxy variables and pass the bypass flag; the
two provisioning bootstrap invocations in setupEmbeddablePython instead
override the four HTTP and HTTPS proxy variables to empty strings and set
NO_PROXY to a wildcard, inherit ALL_PROXY, all_proxy and no_proxy from the
parent environment unchanged, and pass no bypass flag. -/
theorem claim_C4_amended :
    ∀ (e : EnvMap) (pipA pipB pipC pipD pyExe idir : String) (hasReq : Bool),
      (proxyStripped (installVirtualenvSpawn pipA e) ∧
        hasNoProxyFlag (installVirtualenvSpawn pipA e)) ∧
      (proxyStripped (installRequirementsSpawn pipB hasReq e) ∧
        hasNoProxyFlag (installRequirementsSpawn pipB hasReq e)) ∧
      (proxyStripped (repairPythonSpawn pipC e) ∧
        hasNoProxyFlag (repairPythonSpawn pipC e)) ∧
      (proxyStripped (createProjectPipSpawn pipD e) ∧
        hasNoProxyFlag (createProjectPipSpawn pipD e)) ∧
      ((virtualenvBootstrapSpawn pipA e).env "HTTP_PROXY" = some "" ∧
        (virtualenvBootstrapSpawn pipA e).env "HTTPS_PROXY" = some "" ∧
        (virtualenvBootstrapSpawn pipA e).env "http_proxy" = some "" ∧
        (virtualenvBootstrapSpawn pipA e).env "https_proxy" = some "" ∧
        (virtualenvBootstrapSpawn pipA e).env "NO_PROXY" = some "*" ∧
        (virtualenvBootstrapSpawn pipA e).env "ALL_PROXY" = e "ALL_PROXY" ∧
        (virtualenvBootstrapSpawn pipA e).env "all_proxy" = e "all_proxy" ∧
        (virtualenvBootstrapSpawn pipA e).env "no_proxy" = e "no_proxy" ∧
        ¬ hasNoProxyFlag (virtualenvBootstrapSpawn pipA e)) ∧
      ((getPipBootstrapSpawn pyExe (joinPath idir "get-pip.py") e).env "ALL_PROXY" =
          e "ALL_PROXY" ∧
        ¬ hasNoProxyFlag (getPipBootstrapSpawn pyExe (joinPath idir "get-pip.py") e)) := by
  intro e pipA pipB pipC pipD pyExe idir hasReq
  have hflagA : hasNoProxyFlag (installVirtualenvSpawn pipA e) := by
    show ("--no-proxy" : String) ∈ ["install", "--no-proxy", "virtualenv"]
    decide
  have hflagB : hasNoProxyFlag (installRequirementsSpawn pipB hasReq e) := by
    cases hasReq with
    | false =>
      show ("--no-proxy" : String) ∈ ["install", "--no-proxy", "otree"]
      decide
    | true =>
      show ("--no-proxy" : String) ∈ ["install", "--no-proxy", "-r", "requirements.txt"]
      decide
  have hflagC : hasNoProxyFlag (repairPythonSpawn pipC e) := by
    show ("--no-proxy" : String) ∈ ["install", "--no-proxy", "--force-reinstall", "virtualenv"]
    decide
  have hflagD : hasNoProxyFlag (createProjectPipSpawn pipD e) := by
    show ("--no-proxy" : String) ∈ ["install", "--no-proxy", "otree"]
    decide
  have hnoflag1 : ¬ hasNoProxyFlag (virtualenvBootstrapSpawn pipA e) := by
    show ¬ ("--no-proxy" : String) ∈ ["install", "virtualenv"]
    decide
  have hnoflag2 : ¬ hasNoProxyFlag (getPipBootstrapSpawn pyExe (joinPath idir "get-pip.py") e) := by
    intro hmem
    have h := List.mem_singleton.mp hmem
    exact getPipPath_ne_flag idir h.symm
  exact ⟨⟨⟨rfl, rfl, rfl, rfl, rfl, rfl, rfl, rfl⟩, hflagA⟩,
    ⟨⟨rfl, rfl, rfl, rfl, rfl, rfl, rfl, rfl⟩, hflagB⟩,
    ⟨⟨rfl, rfl, rfl, rfl, rfl, rfl, rfl, rfl⟩, hflagC⟩,
    ⟨⟨rfl, rfl, rfl, rfl, rfl, rfl, rfl, rfl⟩, hflagD⟩,
    ⟨rfl, rfl, rfl, rfl, rfl, rfl, rfl, rfl, hnoflag1⟩,
    ⟨rfl, hnoflag2⟩⟩

/-- Claim C5: when the desired port is free on the loopback interface,
getPort resolves with exactly the desired port; when it is in use, it
resolves with the OS-assigned port of the fallback zero bind, which is then
free and necessarily different from the busy desired port; only the
EADDRINUSE code triggers the fallback and any other bind error is
propagated as a rejection; and the first test bind is always made
explicitly against 127.0.0.1. -/
theorem claim_C5 :
    ∀ (busy : List Nat) (desired osAssigned : Nat),
      (desired ∉ busy → getPortScenario busy osAssigned desired = .resolved desired) ∧
      (desired ∈ busy → osAssigned ∉ busy →
        getPortScenario busy osAssigned desired = .resolved osAssigned ∧
        osAssigned ≠ desired) ∧
      (∀ (code : String) (sb : BindResult) (os : Nat), code ≠ errCodePortInUse →
        getPort desired (.err code) sb os = .rejected code) ∧
      (∀ fb : BindResult,
        (getPortListenCalls desired fb).head? =
          some { port := desired, host := some "127.0.0.1" }) := by
  intro busy desired osAssigned
  refine ⟨?_, ?_, ?_, ?_⟩
  · intro h
    simp [getPortScenario, osBind, h, getPort]
  · intro h1 h2
    constructor
    · simp [getPortScenario, osBind, h1, h2, getPort]
    · intro he
      subst he
      exact h2 h1
  · intro code sb os hne
    simp [getPort, hne]
  · intro fb
    cases fb with
    | ok => rfl
    | err code =>
      simp only [getPortListenCalls]
      split <;> rfl

/-- Claim C5 witness: with port 8000 busy and OS-assigned fallback 52301, a
request for free port 8001 resolves to 8001, a request for busy port 8000
resolves to the different free port 52301, and a non-EADDRINUSE bind error
is rejected. -/
theorem claim_C5_witness :
    (getPortScenario [8000] 52301 8001 = .resolved 8001) ∧
    (getPortScenario [8000] 52301 8000 = .resolved 52301 ∧ 52301 ≠ 8000) ∧
    (getPort 8000 (.err "EACCES") .ok 52301 = .rejected "EACCES") :=
  ⟨(claim_C5 [8000] 8001 52301).1 (by decide),
   (claim_C5 [8000] 8000 52301).2.1 (by decide) (by decide),
   (claim_C5 [8000] 8000 52301).2.2.1 "EACCES" .ok 52301 (by decide)⟩

lemma portBusyAfter_eq_any (chunks : List String) :
    portBusyAfter chunks = chunks.any portBusyMarker := by
  have h : ∀ (l : List String) (b : Bool),
      l.foldl (fun b log => b || portBusyMarker log) b = (b || l.any portBusyMarker) := by
    intro l
    induction l with
    | nil => intro b; simp
    | cons c cs ih => intro b; simp [List.foldl_cons, List.any_cons, ih, Bool.or_assoc]
  simpa [portBusyAfter] using h chunks false

/-- Claim C6: in Python mode, if any output chunk of the child contained the
port-already-in-use marker (Errno 10048 or the address-already-in-use
text), the close handler emits the running status whatever the exit code
is, not a stopped status. -/
theorem claim_C6 :
    ∀ (chunks : List String) (code : Option Int),
      (∃ c ∈ chunks, portBusyMarker c = true) →
      pythonCloseStatus (portBusyAfter chunks) code = "running" := by
  intro chunks code h
  have hany : chunks.any portBusyMarker = true := by
    rw [List.any_eq_true]
    rcases h with ⟨c, hc, hm⟩
    exact ⟨c, hc, hm⟩
  simp [pythonCloseStatus, portBusyAfter_eq_any, hany]

/-- Claim C6 witness: a session whose output contained an Errno 10048 line
reports running on close even with a nonzero exit code. -/
theorem claim_C6_witness :
    pythonCloseStatus (portBusyAfter
      ["OSError: [Errno 10048] only one usage of each socket address",
       "server process exited"]) (some 3) = "running" :=
  claim_C6 _ (some 3)
    ⟨"OSError: [Errno 10048] only one usage of each socket address", by decide, by decide⟩

/-- Claim C7: the stop routine is idempotent and reentrant-safe: a call made
while a stop is already in flight observes the guard and returns at once
with no actions and no state change; a call that runs leaves the guard
released when it finishes; and a call made when no supervised process is
tracked performs no kill or teardown action and only resets the guard. The
embedding is a total function, so every call completes without error. -/
theorem claim_C7 :
    ∀ (isWin hasWindow groupKillFails : Bool) (s : CtrlState),
      (s.isCleaningUp = true →
        killOtreeProcess isWin hasWindow groupKillFails s = (s, [])) ∧
      (s.isCleaningUp = false →
        (killOtreeProcess isWin hasWindow groupKillFails s).1.isCleaningUp = false ∧
        (s.otreeProcess = none →
          (killOtreeProcess isWin hasWindow groupKillFails s).2.all
            (fun a => ! a.isKill) = true ∧
          (killOtreeProcess isWin hasWindow groupKillFails s).1 =
            { s with isCleaningUp := false })) := by
  intro isWin hasWindow groupKillFails s
  constructor
  · intro h
    simp [killOtreeProcess, h]
  · intro h
    cases hop : s.otreeProcess with
    | none =>
      refine ⟨?_, fun _ => ⟨?_, ?_⟩⟩ <;>
        cases hasWindow <;>
          simp [killOtreeProcess, h, hop, StopAction.isKill]
    | some pid =>
      refine ⟨?_, fun hc => ?_⟩
      · simp [killOtreeProcess, h, hop]
      · cases hc

/-- Claim C7 witness: a stop while one is in flight is an exact no-op, and a
stop with nothing tracked performs only status logging and just resets the
guard. -/
theorem claim_C7_witness :
    killOtreeProcess true true false
      { otreeProcess := some 7, running := [7], nextPid := 8, isDockerMode := false,
        currentPort := 8000, isCleaningUp := true, currentProjectPath := none } =
      ({ otreeProcess := some 7, running := [7], nextPid := 8, isDockerMode := false,
         currentPort := 8000, isCleaningUp := true, currentProjectPath := none }, []) ∧
    (killOtreeProcess false true false
      { otreeProcess := none, running := [], nextPid := 3, isDockerMode := false,
        currentPort := 8000, isCleaningUp := false, currentProjectPath := none }).1.isCleaningUp
      = false ∧
    (killOtreeProcess false true false
      { otreeProcess := none, running := [], nextPid := 3, isDockerMode := false,
        currentPort := 8000, isCleaningUp := false, currentProjectPath := none }).2.all
        (fun a => ! a.isKill) = true ∧
    (killOtreeProcess false true false
      { otreeProcess := none, running := [], nextPid := 3, isDockerMode := false,
        currentPort := 8000, isCleaningUp := false, currentProjectPath := none }).1 =
      { otreeProcess := none, running := [], nextPid := 3, isDockerMode := false,
        currentPort := 8000, isCleaningUp := false, currentProjectPath := none } :=
  ⟨(claim_C7 true true false _).1 rfl,
   ((claim_C7 false true false _).2 rfl).1,
   (((claim_C7 false true false _).2 rfl).2 rfl).1,
   (((claim_C7 false true false _).2 rfl).2 rfl).2⟩

/-- Claim C9: registry loading degrades gracefully: an absent or unparsable
persisted document loads as the empty catalog (empty managed list, empty
system list, empty preference map) instead of raising, and a save failure
is logged and swallowed: nothing is ever raised to the caller. -/
theorem claim_C9 :
    ∀ (r : PythonRegistry) (prior : RegistryDoc) (wo : WriteOutcome),
      loadRegistry RegistryDoc.absent = emptyRegistry ∧
      loadRegistry RegistryDoc.unparsable = emptyRegistry ∧
      emptyRegistry.managed = [] ∧
      emptyRegistry.system = [] ∧
      emptyRegistry.projectPreferences = [] ∧
      (saveRegistry r prior wo).raised = none ∧
      (∀ m, (saveRegistry r prior (.ioError m)).loggedError = some m) := by
  intro r prior wo
  refine ⟨rfl, rfl, rfl, rfl, rfl, ?_, fun m => rfl⟩
  cases wo <;> rfl

/-- Claim C10: the clean-environment handler never throws to its caller: a
missing venv root returns success with the not-found message and leaves the
filesystem alone; an existing root is removed and success returned; a
filesystem failure is converted into a returned failure value with the
error message, again leaving the filesystem alone. -/
theorem claim_C10 :
    ∀ (isWin : Bool) (userData : String) (dirs : List String) (p m : String),
      ((getVenvPaths isWin userData p).venvDir ∉ dirs →
        cleanVenvHandler isWin userData dirs p .ok =
          ({ success := true,
             message := "No virtual environment found for this project." }, dirs) ∧
        cleanVenvHandler isWin userData dirs p (.failure m) =
          ({ success := true,
             message := "No virtual environment found for this project." }, dirs)) ∧
      ((getVenvPaths isWin userData p).venvDir ∈ dirs →
        (cleanVenvHandler isWin userData dirs p .ok).1 =
          { success := true, message := "Virtual environment removed successfully." } ∧
        (getVenvPaths isWin userData p).venvDir ∉
          (cleanVenvHandler isWin userData dirs p .ok).2 ∧
        cleanVenvHandler isWin userData dirs p (.failure m) =
          ({ success := false, message := m }, dirs)) := by
  intro isWin userData dirs p m
  constructor
  · intro h
    constructor <;> simp [cleanVenvHandler, h]
  · intro h
    refine ⟨?_, ?_, ?_⟩
    · simp [cleanVenvHandler, h]
    · have hred : (cleanVenvHandler isWin userData dirs p .ok).2 =
          removeDirTree dirs (getVenvPaths isWin userData p).venvDir := by
        simp [cleanVenvHandler, h]
      rw [hred, removeDirTree]
      intro hmem
      rw [List.mem_filter] at hmem
      have h2 := hmem.2
      rw [underDir_self] at h2
      simp at h2
    · simp [cleanVenvHandler, h]

/-- Claim C10 witness: cleaning a project with no venv root returns success
with the not-found message, and cleaning a project whose root exists
removes it and returns success, while a failing removal returns the failure
value. -/
theorem claim_C10_witness :
    (cleanVenvHandler false "/ud" [] "/home/u/proj" .ok =
       ({ success := true,
          message := "No virtual environment found for this project." }, []) ∧
     cleanVenvHandler false "/ud" [] "/home/u/proj" (.failure "EACCES") =
       ({ success := true,
          message := "No virtual environment found for this project." }, [])) ∧
    ((cleanVenvHandler false "/ud" [(getVenvPaths false "/ud" "/home/u/proj").venvDir]
        "/home/u/proj" .ok).1 =
       { success := true, message := "Virtual environment removed successfully." } ∧
     (getVenvPaths false "/ud" "/home/u/proj").venvDir ∉
       (cleanVenvHandler false "/ud" [(getVenvPaths false "/ud" "/home/u/proj").venvDir]
         "/home/u/proj" .ok).2 ∧
     cleanVenvHandler false "/ud" [(getVenvPaths false "/ud" "/home/u/proj").venvDir]
         "/home/u/proj" (.failure "EACCES") =
       ({ success := false, message := "EACCES" },
        [(getVenvPaths false "/ud" "/home/u/proj").venvDir])) :=
  ⟨(claim_C10 false "/ud" [] "/home/u/proj" "EACCES").1 (List.not_mem_nil _),
   (claim_C10 false "/ud" [(getVenvPaths false "/ud" "/home/u/proj").venvDir]
      "/home/u/proj" "EACCES").2 (List.mem_singleton.mpr rfl)⟩

end OtreeDeploy
